import Mathlib

/-!
Verification development for the hybridization preconditioner
(`firedrake/slate/preconditioners.py`, class `HybridizationPC`).

The module is a PETSc preconditioner orchestrating external kernels
(PETSc vectors/KSP, the Slate form compiler, projectors).  We embed it
shallowly:

* UFL forms and Slate tensor expressions become a syntax tree
  (`UFLForm`, `SlateExpr`), mirroring exactly the expressions the
  Python code builds (`Tensor`, `*`, `+`, `-`, `.T`, `.inv`).
* `HybridizationPC.initialize` becomes `HybridizationPC.pcSetUp`
  (the Python name cannot be used as a Lean identifier), a pure
  function from the problem context to either a configuration error
  (the Python exception, with its message) or a record of everything
  the method constructs: the trace degree, the boundary conditions,
  the assembly callables (symbolic expression, target storage, and
  the boundary conditions passed at creation), the KSP description,
  the reconstruction expressions and the two projectors.  It also
  returns the list of assembly-work events performed, so that
  "raises before any assembly occurs" is expressible.
* `create_schur_nullspace` keeps its name; the per-vector transfer
  pipeline (copy into a conforming field, project into the broken
  space, assemble the forward action) is recorded syntactically.
* `HybridizationPC.apply` becomes `HybridizationPC.applyHP`, explicit
  state passing over the orchestrator's persistent fields with the
  external numeric kernels as parameters, returning both the new
  state, the output vector value, and the trace of the executed steps;
  `stepReads`/`stepWrites` give each step's read/write footprint on
  the PETSc input x, the output y, and the persistent fields.
* `HybridizationPC.update` becomes `HybridizationPC.updatePC`, a pure
  state transformer re-running the two assembly callables.
-/

/-- A UFL finite element as the code consults it: `family()`,
`degree()`, `value_shape()` (empty for scalar elements, nonempty for
vector-valued ones).  Degrees are `Int` to match Python integers. -/
structure UFLElement where
  family : String
  degree : Int
  value_shape : List Nat
deriving DecidableEq, Repr

/-- The problem context extracted at the start of the set-up method:
whether the mesh is extruded (`mesh.cell_set._extruded`), the list of
component spaces of the mixed space `V` (each given by its UFL
element), an identifier for the original bilinear form `context.a`,
the nullspace attached to `P` (`none` models a PETSc nullspace with
`handle == 0`, vectors are identified by `Nat` tags), and the options
prefix string. -/
structure PCContext where
  extruded : Bool
  spaces : List UFLElement
  a_id : Nat
  nullspaceVecs : Option (List Nat)
  opt_pfx : String
deriving DecidableEq, Repr

/-- The Python exceptions raised by the set-up method. -/
inductive InitError
  | notImplementedError (msg : String)
  | assertionError (msg : String)
  | valueError (msg : String)
deriving DecidableEq, Repr

/-- The two distinct trial functions used in the facet pairings:
`sigma` (the vector-shaped component of `TrialFunctions(V_d)`, used in
the global `K`) and the trial function on
`FunctionSpace(mesh, BrokenElement(W))` (used in `K_local`). -/
inductive TrialSrc
  | mixedBrokenVector
  | brokenVectorSpace
deriving DecidableEq, Repr

/-- UFL forms as the code manipulates them: the original bilinear form
`context.a` (`base`), the result of `replace(context.a, arg_map)`
substituting broken-space arguments (`replacedBroken`), a block of
`split_form` (`blockOf`), and the facet pairing
`gammar` restricted to interior facets times `dot(trial, n) * dS`
(`facetNormalPairing`). -/
inductive UFLForm
  | base (id : Nat)
  | replacedBroken (f : UFLForm)
  | blockOf (f : UFLForm) (i j : Nat)
  | facetNormalPairing (t : TrialSrc)
deriving DecidableEq, Repr

/-- Coefficient functions appearing inside Slate expressions:
`self.broken_rhs` (the whole mixed function), its two split components
`g, f = self.broken_rhs.split()` (component 0, the H(div) vector part,
and component 1, the scalar part), `self.trace_solution`, and `u_h`
(component 1 of `self.broken_solution.split()`). -/
inductive Coeff
  | brokenRhs
  | g
  | f
  | traceSolution
  | u_h
deriving DecidableEq, Repr

/-- Slate tensor expressions: `Tensor(form)` leaves, coefficient
functions, and the operators the code uses (`+`, `-`, `*`, `.T`,
`.inv`).  Python `*` is left associative and binds tighter than
`+`/`-`, which the embedding of each expression respects. -/
inductive SlateExpr
  | tensor (f : UFLForm)
  | coeff (c : Coeff)
  | add (a b : SlateExpr)
  | sub (a b : SlateExpr)
  | mul (a b : SlateExpr)
  | transpose (a : SlateExpr)
  | inv (a : SlateExpr)
deriving DecidableEq, Repr

/-- A `DirichletBC(space, Constant(0.0), subdomain)` as constructed for
the trace space; the constant value 0.0 is modelled as the integer 0. -/
structure DirichletBCSpec where
  space : String
  value : Int
  subdomain : String
deriving DecidableEq, Repr

/-- The persistent storage locations (PETSc matrix and Firedrake
function components) owned by the orchestrator.  Mixed functions are
identified by their split components: component 0 is the H(div)
vector-valued part, component 1 the scalar part. -/
inductive FieldRef
  | brokenSolutionVec
  | brokenSolutionScal
  | brokenRhsVec
  | brokenRhsScal
  | unbrokenRhsVec
  | unbrokenRhsScal
  | unbrokenSolutionVec
  | unbrokenSolutionScal
  | schurRhsField
  | traceSolutionField
  | SMatrix
deriving DecidableEq, Repr

/-- What `create_assembly_callable(expr, tensor, bcs, ...)` captures:
the symbolic expression, the target storage, and the boundary
conditions passed at creation (`[]` when the call passes no `bcs`
argument). -/
structure AssemblyCallable where
  expr : SlateExpr
  target : FieldRef
  bcs : List DirichletBCSpec
deriving DecidableEq, Repr

/-- What `allocate_matrix(expr, bcs, ...)` captures. -/
structure MatrixAlloc where
  expr : SlateExpr
  bcs : List DirichletBCSpec
deriving DecidableEq, Repr

/-- A `Projector(source, target)` as wired at set-up time. -/
structure ProjectorSpec where
  source : FieldRef
  target : FieldRef
deriving DecidableEq, Repr

/-- The KSP created for the Lagrange multiplier system: its options
prefix and the matrix handed to `setOperators`. -/
structure KSPInfo where
  opt_pfx : String
  operatorRef : FieldRef
deriving DecidableEq, Repr

/-- The work performed per nullspace vector inside
`create_schur_nullspace`: the copy `v.copy(t)` into the conforming
field `tmp`, the projection `project(tmp, tmp_b)` into the broken
field, and `assemble(forward_action, tensor=tnsp_tmp)`. -/
inductive NsEvent
  | copyIntoConforming
  | projectIntoBroken
  | assembleForwardAction
deriving DecidableEq, Repr

/-- The value copied into the conforming-space field `tmp`. -/
inductive ConformingCopy
  | ofVec (v : Nat)
deriving DecidableEq, Repr

/-- The value obtained in the broken-space field `tmp_b` by
`project(tmp, tmp_b)`. -/
inductive BrokenProj
  | ofConforming (t : ConformingCopy)
deriving DecidableEq, Repr

/-- A produced trace-space nullspace vector: the assembly of the
forward action `forward * tmp_b` into `tnsp_tmp` (then copied out). -/
inductive TraceVecNS
  | assembledAction (forward : SlateExpr) (b : BrokenProj)
deriving DecidableEq, Repr

/-- The transfer of one original nullspace vector, with the work it
performs. -/
def transferOne (forward : SlateExpr) (v : Nat) : TraceVecNS × List NsEvent :=
  (TraceVecNS.assembledAction forward (BrokenProj.ofConforming (ConformingCopy.ofVec v)),
   [NsEvent.copyIntoConforming, NsEvent.projectIntoBroken, NsEvent.assembleForwardAction])

/-- Embedding of `create_schur_nullspace(P, forward, V, V_d, TraceSpace,
comm)`: when `P.getNullSpace()` has `handle == 0` (modelled as `none`)
it returns `None` having done no work; otherwise it transfers every
vector of the nullspace in order and collects the results into a new
nullspace. -/
def create_schur_nullspace (forward : SlateExpr) (ns : Option (List Nat)) :
    Option (List TraceVecNS) × List NsEvent :=
  match ns with
  | none => (none, [])
  | some vecs =>
    let r := vecs.map (transferOne forward)
    (some (r.map Prod.fst), (r.map Prod.snd).flatten)

/-- Assembly-work events of the set-up method: the execution of
`self._assemble_S()` and the work inside `create_schur_nullspace`. -/
inductive InitEvent
  | assembleS
  | nsWork (e : NsEvent)
deriving DecidableEq, Repr

/-- The configuration checks at the top of the set-up method, in
source order: the extruded-mesh rejection, the two-space assertion,
the both-vector-valued rejection, and the extraction
`W, = (v for v in V if v.ufl_element().value_shape())` of the unique
vector-valued space (a Python unpacking `ValueError` when the count
is not one). -/
def pcChecks (ctx : PCContext) : Except InitError UFLElement :=
  if ctx.extruded then
    Except.error (InitError.notImplementedError "Not implemented on extruded meshes.")
  else if ctx.spaces.length ≠ 2 then
    Except.error (InitError.assertionError
      "Can only hybridize a mixed system with two spaces.")
  else if ctx.spaces.all (fun e => !e.value_shape.isEmpty) then
    Except.error (InitError.valueError
      "Expecting an H(div) x L2 pair of spaces. Both spaces cannot be vector-valued.")
  else
    match ctx.spaces.filter (fun e => !e.value_shape.isEmpty) with
    | [w] => Except.ok w
    | [] => Except.error (InitError.valueError
        "not enough values to unpack (expected 1, got 0)")
    | _ => Except.error (InitError.valueError
        "too many values to unpack (expected 1)")

/-- The trace-space degree derivation from the vector space `W`:
`degree - 1` for Raviart-Thomas, `degree` for Brezzi-Douglas-Marini,
and a `ValueError` with the family name for anything else. -/
def traceDegreeOf (w : UFLElement) : Except InitError Int :=
  if w.family = "Raviart-Thomas" then Except.ok (w.degree - 1)
  else if w.family = "Brezzi-Douglas-Marini" then Except.ok w.degree
  else Except.error (InitError.valueError (w.family ++ " not supported at the moment."))

/-- Everything the set-up method constructs and stores on `self`. -/
structure InitResult where
  tdegree : Int
  trace_conditions : List DirichletBCSpec
  Atilde : SlateExpr
  K : SlateExpr
  schur_rhs_callable : AssemblyCallable
  S_alloc : MatrixAlloc
  S_callable : AssemblyCallable
  smatNullspace : Option (List TraceVecNS)
  nullspaceEvents : List NsEvent
  ksp : KSPInfo
  u_sol : SlateExpr
  sigma_sol : SlateExpr
  pressure_callable : AssemblyCallable
  velocity_callable : AssemblyCallable
  data_projector : ProjectorSpec
  projector : ProjectorSpec
deriving DecidableEq, Repr

/-- The construction phase of the set-up method, after the checks and
the trace-degree derivation succeeded.  Each field is a direct
transcription of the corresponding source lines; the event list
records that `self._assemble_S()` runs once, followed by the
nullspace-transfer work. -/
def buildResult (ctx : PCContext) (tdeg : Int) : InitResult × List InitEvent :=
  -- trace_conditions = [DirichletBC(TraceSpace, Constant(0.0), "on_boundary")]
  let trace_conditions : List DirichletBCSpec := [⟨"TraceSpace", 0, "on_boundary"⟩]
  -- Atilde = Tensor(replace(context.a, arg_map))
  let Atilde := SlateExpr.tensor (UFLForm.replacedBroken (UFLForm.base ctx.a_id))
  -- K = Tensor(gammar restricted to interior facets * dot(sigma, n) * dS)
  let K := SlateExpr.tensor (UFLForm.facetNormalPairing TrialSrc.mixedBrokenVector)
  -- self._assemble_Srhs = create_assembly_callable(K * Atilde.inv * self.broken_rhs,
  --                                                tensor=self.schur_rhs, ...)
  -- (no bcs argument is passed here)
  let schur_rhs_callable : AssemblyCallable :=
    ⟨SlateExpr.mul (SlateExpr.mul K (SlateExpr.inv Atilde)) (SlateExpr.coeff Coeff.brokenRhs),
     FieldRef.schurRhsField, []⟩
  -- schur_comp = K * Atilde.inv * K.T
  let schur_comp :=
    SlateExpr.mul (SlateExpr.mul K (SlateExpr.inv Atilde)) (SlateExpr.transpose K)
  -- self.S = allocate_matrix(schur_comp, bcs=trace_conditions, ...)
  let S_alloc : MatrixAlloc := ⟨schur_comp, trace_conditions⟩
  -- self._assemble_S = create_assembly_callable(schur_comp, tensor=self.S,
  --                                             bcs=trace_conditions, ...)
  let S_callable : AssemblyCallable := ⟨schur_comp, FieldRef.SMatrix, trace_conditions⟩
  -- self._assemble_S(); self.S.force_evaluation()
  -- nullspace = create_schur_nullspace(P, K * Atilde.inv, V, V_d, TraceSpace, pc.comm)
  let nsr := create_schur_nullspace (SlateExpr.mul K (SlateExpr.inv Atilde)) ctx.nullspaceVecs
  -- if nullspace: Smat.setNullSpace(nullspace)
  let smatNullspace := nsr.1
  -- ksp.setOptionsPrefix(prefix + "hybridization_"); ksp.setOperators(Smat)
  let ksp : KSPInfo := ⟨ctx.opt_pfx ++ "hybridization_", FieldRef.SMatrix⟩
  -- A, B, C, D = blocks (0,0), (0,1), (1,0), (1,1) of split_form(Atilde.form)
  let A := SlateExpr.tensor (UFLForm.blockOf (UFLForm.replacedBroken (UFLForm.base ctx.a_id)) 0 0)
  let B := SlateExpr.tensor (UFLForm.blockOf (UFLForm.replacedBroken (UFLForm.base ctx.a_id)) 0 1)
  let C := SlateExpr.tensor (UFLForm.blockOf (UFLForm.replacedBroken (UFLForm.base ctx.a_id)) 1 0)
  let D := SlateExpr.tensor (UFLForm.blockOf (UFLForm.replacedBroken (UFLForm.base ctx.a_id)) 1 1)
  -- K_local = Tensor(gammar restricted * dot(trial, n) * dS), trial on BrokenElement(W)
  let K_local := SlateExpr.tensor (UFLForm.facetNormalPairing TrialSrc.brokenVectorSpace)
  -- M = D - C * A.inv * B
  let M := SlateExpr.sub D (SlateExpr.mul (SlateExpr.mul C (SlateExpr.inv A)) B)
  -- u_sol = M.inv * f + M.inv * (C * A.inv * K_local.T * self.trace_solution
  --                              - C * A.inv * g)
  let u_sol :=
    SlateExpr.add (SlateExpr.mul (SlateExpr.inv M) (SlateExpr.coeff Coeff.f))
      (SlateExpr.mul (SlateExpr.inv M)
        (SlateExpr.sub
          (SlateExpr.mul
            (SlateExpr.mul (SlateExpr.mul C (SlateExpr.inv A)) (SlateExpr.transpose K_local))
            (SlateExpr.coeff Coeff.traceSolution))
          (SlateExpr.mul (SlateExpr.mul C (SlateExpr.inv A)) (SlateExpr.coeff Coeff.g))))
  -- sigma_sol = A.inv * g - A.inv * (B * u_h + K_local.T * self.trace_solution)
  let sigma_sol :=
    SlateExpr.sub (SlateExpr.mul (SlateExpr.inv A) (SlateExpr.coeff Coeff.g))
      (SlateExpr.mul (SlateExpr.inv A)
        (SlateExpr.add (SlateExpr.mul B (SlateExpr.coeff Coeff.u_h))
          (SlateExpr.mul (SlateExpr.transpose K_local) (SlateExpr.coeff Coeff.traceSolution))))
  -- self._assemble_pressure = create_assembly_callable(u_sol, tensor=u_h, ...)
  let pressure_callable : AssemblyCallable := ⟨u_sol, FieldRef.brokenSolutionScal, []⟩
  -- self._assemble_velocity = create_assembly_callable(sigma_sol, tensor=sigma_h, ...)
  let velocity_callable : AssemblyCallable := ⟨sigma_sol, FieldRef.brokenSolutionVec, []⟩
  -- broken_vec_data = self.broken_rhs.split()[vector_index]
  -- unbroken_vec_data = self.broken_rhs.split()[vector_index]
  -- self.data_projector = Projector(unbroken_vec_data, broken_vec_data)
  let data_projector : ProjectorSpec := ⟨FieldRef.brokenRhsVec, FieldRef.brokenRhsVec⟩
  -- self.projector = Projector(broken_vel, unbroken_vel, solver_parameters=...)
  let projector : ProjectorSpec := ⟨FieldRef.brokenSolutionVec, FieldRef.unbrokenSolutionVec⟩
  (⟨tdeg, trace_conditions, Atilde, K, schur_rhs_callable, S_alloc, S_callable,
    smatNullspace, nsr.2, ksp, u_sol, sigma_sol, pressure_callable, velocity_callable,
    data_projector, projector⟩,
   InitEvent.assembleS :: nsr.2.map InitEvent.nsWork)

/-- Embedding of the set-up method `HybridizationPC.initialize` (that
Python name is not usable as a Lean identifier).  It runs the
configuration checks, derives the trace degree, and only then builds
the hybridized system; the second component lists the assembly work
performed, which is empty on every error path because all checks
precede all assembly in the source. -/
def HybridizationPC.pcSetUp (ctx : PCContext) :
    Except InitError InitResult × List InitEvent :=
  match pcChecks ctx with
  | Except.error e => (Except.error e, [])
  | Except.ok w =>
    match traceDegreeOf w with
    | Except.error e => (Except.error e, [])
    | Except.ok tdeg =>
      let r := buildResult ctx tdeg
      (Except.ok r.1, r.2)

/-- The persistent fields mutated across `apply` calls, with values of
an abstract coefficient-data type.  The suffixes `_v` and `_s` name
the vector-valued (component 0) and scalar (component 1) parts of the
mixed functions. -/
structure Fields (α : Type) where
  unbroken_rhs_v : α
  unbroken_rhs_s : α
  broken_rhs_v : α
  broken_rhs_s : α
  schur_rhs : α
  trace_solution : α
  broken_sol_v : α
  broken_sol_s : α
  unbroken_sol_v : α
  unbroken_sol_s : α
deriving DecidableEq, Repr

/-- The external numeric kernels `apply` invokes, as abstract
functions of the field values they read: the forward data projector,
the callable assembling the Schur right-hand side from `broken_rhs`,
the KSP solve, the two reconstruction callables (reading the split
right-hand side, the trace solution, and for the velocity the already
reconstructed scalar `u_h`), and the backward solution projector. -/
structure ExternalOps (α : Type) where
  dataProject : α → α
  asmSrhs : α → α → α
  kspSolve : α → α
  asmPressure : α → α → α → α
  asmVelocity : α → α → α → α
  solutionProject : α → α

/-- The ten effectful steps of `apply`, in source order. -/
inductive ApplyStep
  | copy_x_to_unbroken_rhs
  | project_data
  | copy_scalar_rhs
  | assemble_Srhs
  | ksp_solve
  | assemble_pressure
  | assemble_velocity
  | copy_scalar_solution
  | project_solution
  | copy_solution_to_y
deriving DecidableEq, Repr

/-- A memory location touched by `apply`: the PETSc input vector `x`,
the PETSc output vector `y`, or one of the orchestrator's persistent
fields. -/
inductive Loc
  | x
  | y
  | field (f : FieldRef)
deriving DecidableEq, Repr

/-- Whether a location is one of the orchestrator's persistent
fields. -/
def Loc.isField : Loc → Bool
  | Loc.field _ => true
  | _ => false

/-- Read footprint of each `apply` step, from the source. -/
def stepReads : ApplyStep → List Loc
  | ApplyStep.copy_x_to_unbroken_rhs => [Loc.x]
  | ApplyStep.project_data => [Loc.field FieldRef.brokenRhsVec]
  | ApplyStep.copy_scalar_rhs => [Loc.field FieldRef.unbrokenRhsScal]
  | ApplyStep.assemble_Srhs =>
      [Loc.field FieldRef.brokenRhsVec, Loc.field FieldRef.brokenRhsScal]
  | ApplyStep.ksp_solve => [Loc.field FieldRef.schurRhsField]
  | ApplyStep.assemble_pressure =>
      [Loc.field FieldRef.brokenRhsVec, Loc.field FieldRef.brokenRhsScal,
       Loc.field FieldRef.traceSolutionField]
  | ApplyStep.assemble_velocity =>
      [Loc.field FieldRef.brokenRhsVec, Loc.field FieldRef.brokenSolutionScal,
       Loc.field FieldRef.traceSolutionField]
  | ApplyStep.copy_scalar_solution => [Loc.field FieldRef.brokenSolutionScal]
  | ApplyStep.project_solution => [Loc.field FieldRef.brokenSolutionVec]
  | ApplyStep.copy_solution_to_y =>
      [Loc.field FieldRef.unbrokenSolutionVec, Loc.field FieldRef.unbrokenSolutionScal]

/-- Write footprint of each `apply` step, from the source. -/
def stepWrites : ApplyStep → List Loc
  | ApplyStep.copy_x_to_unbroken_rhs =>
      [Loc.field FieldRef.unbrokenRhsVec, Loc.field FieldRef.unbrokenRhsScal]
  | ApplyStep.project_data => [Loc.field FieldRef.brokenRhsVec]
  | ApplyStep.copy_scalar_rhs => [Loc.field FieldRef.brokenRhsScal]
  | ApplyStep.assemble_Srhs => [Loc.field FieldRef.schurRhsField]
  | ApplyStep.ksp_solve => [Loc.field FieldRef.traceSolutionField]
  | ApplyStep.assemble_pressure => [Loc.field FieldRef.brokenSolutionScal]
  | ApplyStep.assemble_velocity => [Loc.field FieldRef.brokenSolutionVec]
  | ApplyStep.copy_scalar_solution => [Loc.field FieldRef.unbrokenSolutionScal]
  | ApplyStep.project_solution => [Loc.field FieldRef.unbrokenSolutionVec]
  | ApplyStep.copy_solution_to_y => [Loc.y]

/-- Embedding of `HybridizationPC.apply(pc, x, y)` as explicit state
passing.  The input vector `x` and output vector `y` carry the layout
of the unbroken mixed space and are modelled as the pair of their
vector and scalar components.  The forward data projector reads and
writes the broken right-hand side vector component, as wired at
set-up (`Projector(self.broken_rhs.split()[vector_index],
self.broken_rhs.split()[vector_index])`); the backward projector maps
the broken solution vector component into the unbroken one.  Returns
the updated fields, the value copied into `y`, and the executed step
trace. -/
def HybridizationPC.applyHP {α : Type} (ops : ExternalOps α) (st : Fields α)
    (x : α × α) : Fields α × (α × α) × List ApplyStep :=
  -- with self.unbroken_rhs.dat.vec as v: x.copy(v)
  let st1 : Fields α := { st with unbroken_rhs_v := x.1, unbroken_rhs_s := x.2 }
  -- self.data_projector.project()
  let st2 : Fields α := { st1 with broken_rhs_v := ops.dataProject st1.broken_rhs_v }
  -- unbroken_scalar_field.dat.copy(broken_scalar_field.dat)
  let st3 : Fields α := { st2 with broken_rhs_s := st2.unbroken_rhs_s }
  -- self._assemble_Srhs()
  let st4 : Fields α :=
    { st3 with schur_rhs := ops.asmSrhs st3.broken_rhs_v st3.broken_rhs_s }
  -- self.ksp.solve(b, x) with b = schur_rhs, x = trace_solution
  let st5 : Fields α := { st4 with trace_solution := ops.kspSolve st4.schur_rhs }
  -- self._assemble_pressure()
  let st6 : Fields α :=
    { st5 with broken_sol_s :=
        ops.asmPressure st5.broken_rhs_v st5.broken_rhs_s st5.trace_solution }
  -- self._assemble_velocity()
  let st7 : Fields α :=
    { st6 with broken_sol_v :=
        ops.asmVelocity st6.broken_rhs_v st6.broken_sol_s st6.trace_solution }
  -- broken_pressure.dat.copy(unbroken_pressure.dat)
  let st8 : Fields α := { st7 with unbroken_sol_s := st7.broken_sol_s }
  -- self.projector.project()
  let st9 : Fields α := { st8 with unbroken_sol_v := ops.solutionProject st8.broken_sol_v }
  -- with self.unbroken_solution.dat.vec_ro as v: v.copy(y)
  (st9, (st9.unbroken_sol_v, st9.unbroken_sol_s),
   [ApplyStep.copy_x_to_unbroken_rhs, ApplyStep.project_data, ApplyStep.copy_scalar_rhs,
    ApplyStep.assemble_Srhs, ApplyStep.ksp_solve, ApplyStep.assemble_pressure,
    ApplyStep.assemble_velocity, ApplyStep.copy_scalar_solution,
    ApplyStep.project_solution, ApplyStep.copy_solution_to_y])

/-- `apply` invoked on the preconditioner object: before the set-up
method has run, the instance has none of the persistent fields and the
first attribute access fails (a Python `AttributeError`); afterwards
it runs the pipeline. -/
def HybridizationPC.applyPC {α : Type} (ops : ExternalOps α)
    (pcState : Option (Fields α)) (x : α × α) :
    Except String (Fields α × (α × α) × List ApplyStep) :=
  match pcState with
  | none => Except.error "AttributeError: HybridizationPC object has no attribute unbroken_rhs"
  | some st => Except.ok (HybridizationPC.applyHP ops st x)

/-- The state `update` acts on: the current coefficient values of the
underlying forms, the two symbolic expressions captured inside the
assembly callables at set-up, the storage they assemble into, and the
KSP object. -/
structure UpdateState (κ μ ν : Type) where
  coeffVals : κ
  exprS : SlateExpr
  exprSrhs : SlateExpr
  S : μ
  schur_rhs : ν
  ksp : KSPInfo

/-- Embedding of `HybridizationPC.update`: it runs
`self._assemble_S()`, `self.S.force_evaluation()` and
`self._assemble_Srhs()`.  Each callable numerically re-assembles its
captured symbolic expression at the current coefficient values into
its existing storage; the assembly kernels are abstract functions
`asmS`, `asmRhs` of the expression and the coefficient values.
Nothing else on the instance is touched. -/
def HybridizationPC.updatePC {κ μ ν : Type} (asmS : SlateExpr → κ → μ)
    (asmRhs : SlateExpr → κ → ν) (st : UpdateState κ μ ν) : UpdateState κ μ ν :=
  { st with S := asmS st.exprS st.coeffVals,
            schur_rhs := asmRhs st.exprSrhs st.coeffVals }

/-- Embedding of `HybridizationPC.applyTranspose(pc, x, y)`: the body
is a single unconditional `raise NotImplementedError` (note the two
adjacent string literals in the source concatenate without a space),
so no state is produced or modified for any input. -/
def HybridizationPC.applyTransposePC {α : Type} (st : Fields α) (x y : α × α) :
    Except String (Fields α × (α × α)) :=
  Except.error ("The transpose application of this PC" ++ "is not implemented.")

/-- A lowest-order Raviart-Thomas element on triangles (vector-valued,
value shape (2,)). -/
def rt1 : UFLElement := ⟨"Raviart-Thomas", 1, [2]⟩

/-- The companion scalar space element (empty value shape). -/
def dg0 : UFLElement := ⟨"Discontinuous Lagrange", 0, []⟩

/-- A valid context: non-extruded mesh, an H(div) x L2 pair, no
nullspace on the original operator. -/
def ctx0 : PCContext := ⟨false, [rt1, dg0], 0, none, ""⟩

/-- The same valid context with a two-vector nullspace attached to the
original operator. -/
def ctx0ns : PCContext := ⟨false, [rt1, dg0], 0, some [5, 9], ""⟩

/-- The set-up result at `ctx0` (trace degree 1 - 1 = 0). -/
def r0 : InitResult := (buildResult ctx0 0).1

/-- The set-up result at `ctx0ns`. -/
def r0ns : InitResult := (buildResult ctx0ns 0).1

/-- An extruded-mesh context. -/
def ctxExtr : PCContext := ⟨true, [rt1, dg0], 0, none, ""⟩

/-- A three-space context. -/
def ctxThree : PCContext := ⟨false, [rt1, dg0, dg0], 0, none, ""⟩

/-- A context whose two spaces are both vector-valued. -/
def ctxBothVec : PCContext := ⟨false, [rt1, rt1], 0, none, ""⟩

/-- A successful set-up is exactly a `buildResult` at some derived
trace degree. -/
theorem pcSetUp_ok {ctx : PCContext} {r : InitResult}
    (h : (HybridizationPC.pcSetUp ctx).1 = Except.ok r) :
    ∃ tdeg : Int, r = (buildResult ctx tdeg).1 := by
  unfold HybridizationPC.pcSetUp at h
  split at h
  · simp at h
  · split at h
    · simp at h
    · rename_i d hd
      exact ⟨d, by simpa using h.symm⟩

/-- `create_schur_nullspace` on an absent nullspace does nothing. -/
theorem create_schur_nullspace_none (forward : SlateExpr) :
    create_schur_nullspace forward none = (none, []) := rfl

/-- `create_schur_nullspace` on a present nullspace transfers every
vector through copy, projection and forward-action assembly. -/
theorem create_schur_nullspace_some (forward : SlateExpr) (vs : List Nat) :
    (create_schur_nullspace forward (some vs)).1 =
      some (vs.map (fun v => TraceVecNS.assembledAction forward
        (BrokenProj.ofConforming (ConformingCopy.ofVec v)))) := by
  simp [create_schur_nullspace, transferOne]

/-- The nullspace stored at set-up is the output of
`create_schur_nullspace` at the forward map `K * Atilde.inv`. -/
theorem buildResult_smatNullspace (ctx : PCContext) (d : Int) :
    (buildResult ctx d).1.smatNullspace =
      (create_schur_nullspace
        (SlateExpr.mul (buildResult ctx d).1.K
          (SlateExpr.inv (buildResult ctx d).1.Atilde))
        ctx.nullspaceVecs).1 := rfl

/-- The nullspace-transfer work recorded at set-up. -/
theorem buildResult_nsEvents (ctx : PCContext) (d : Int) :
    (buildResult ctx d).1.nullspaceEvents =
      (create_schur_nullspace
        (SlateExpr.mul (buildResult ctx d).1.K
          (SlateExpr.inv (buildResult ctx d).1.Atilde))
        ctx.nullspaceVecs).2 := rfl

/-- C1 (counterexample): at the valid context `ctx0` the set-up
succeeds, but the assembly callable for the reduced right-hand side is
not created with the trace-space boundary conditions (the source
passes no bcs argument to it), refuting the claim that both assembly
callables carry them. -/
theorem C1_counterexample :
    ¬ (∀ r : InitResult, (HybridizationPC.pcSetUp ctx0).1 = Except.ok r →
        r.S_callable.bcs = r.trace_conditions ∧
        r.schur_rhs_callable.bcs = r.trace_conditions) := by
  intro h
  have h2 := h r0 rfl
  exact absurd h2.2 (by decide)

/-- C1 (amended): at set-up the builder constructs the global reduced
operator `S = K * Atilde.inv * K.T` and the global reduced right-hand
side `Srhs = K * Atilde.inv * broken_rhs`, with `Atilde` the original
bilinear form with broken-space arguments and `K` the facet pairing of
the trace test function with the normal component of the broken vector
trial function; the matrix allocation for `S` and the assembly
callable for `S` are created with the trace-space zero boundary
conditions applied, while the assembly callable for `Srhs` is created
without boundary conditions. -/
theorem C1_amended (ctx : PCContext) (r : InitResult)
    (h : (HybridizationPC.pcSetUp ctx).1 = Except.ok r) :
    r.Atilde = SlateExpr.tensor (UFLForm.replacedBroken (UFLForm.base ctx.a_id)) ∧
    r.K = SlateExpr.tensor (UFLForm.facetNormalPairing TrialSrc.mixedBrokenVector) ∧
    r.S_alloc.expr =
      SlateExpr.mul (SlateExpr.mul r.K (SlateExpr.inv r.Atilde)) (SlateExpr.transpose r.K) ∧
    r.S_callable.expr =
      SlateExpr.mul (SlateExpr.mul r.K (SlateExpr.inv r.Atilde)) (SlateExpr.transpose r.K) ∧
    r.schur_rhs_callable.expr =
      SlateExpr.mul (SlateExpr.mul r.K (SlateExpr.inv r.Atilde))
        (SlateExpr.coeff Coeff.brokenRhs) ∧
    r.schur_rhs_callable.target = FieldRef.schurRhsField ∧
    r.S_callable.target = FieldRef.SMatrix ∧
    r.trace_conditions = [⟨"TraceSpace", 0, "on_boundary"⟩] ∧
    r.S_alloc.bcs = r.trace_conditions ∧
    r.S_callable.bcs = r.trace_conditions ∧
    r.schur_rhs_callable.bcs = [] := by
  obtain ⟨d, rfl⟩ := pcSetUp_ok h
  exact ⟨rfl, rfl, rfl, rfl, rfl, rfl, rfl, rfl, rfl, rfl, rfl⟩

/-- C1 (witness): the amended statement instantiated at `ctx0`. -/
theorem C1_witness :
    (HybridizationPC.pcSetUp ctx0).1 = Except.ok r0 ∧
    r0.schur_rhs_callable.bcs = [] ∧ r0.S_callable.bcs = r0.trace_conditions :=
  ⟨rfl, (C1_amended ctx0 r0 rfl).2.2.2.2.2.2.2.2.2.2,
   (C1_amended ctx0 r0 rfl).2.2.2.2.2.2.2.2.2.1⟩

/-- C2: the reconstruction expressions prepared at set-up are exactly
u = M.inv * f + M.inv * (C * A.inv * K_local.T * lambda - C * A.inv * g)
with M = D - C * A.inv * B, and
sigma = A.inv * g - A.inv * (B * u + K_local.T * lambda), where A, B,
C, D are the (0,0), (0,1), (1,0), (1,1) blocks of the broken form,
lambda is the solved trace unknown, u the reconstructed scalar
unknown, and g, f the vector and scalar components of the broken
right-hand side; the pressure and velocity callables assemble them
into the corresponding components of the broken solution. -/
theorem C2_reconstruction (ctx : PCContext) (r : InitResult)
    (h : (HybridizationPC.pcSetUp ctx).1 = Except.ok r) :
    (let brokenForm := UFLForm.replacedBroken (UFLForm.base ctx.a_id)
     let A := SlateExpr.tensor (UFLForm.blockOf brokenForm 0 0)
     let B := SlateExpr.tensor (UFLForm.blockOf brokenForm 0 1)
     let C := SlateExpr.tensor (UFLForm.blockOf brokenForm 1 0)
     let D := SlateExpr.tensor (UFLForm.blockOf brokenForm 1 1)
     let K_local := SlateExpr.tensor (UFLForm.facetNormalPairing TrialSrc.brokenVectorSpace)
     let M := SlateExpr.sub D (SlateExpr.mul (SlateExpr.mul C (SlateExpr.inv A)) B)
     r.u_sol =
       SlateExpr.add (SlateExpr.mul (SlateExpr.inv M) (SlateExpr.coeff Coeff.f))
         (SlateExpr.mul (SlateExpr.inv M)
           (SlateExpr.sub
             (SlateExpr.mul
               (SlateExpr.mul (SlateExpr.mul C (SlateExpr.inv A))
                 (SlateExpr.transpose K_local))
               (SlateExpr.coeff Coeff.traceSolution))
             (SlateExpr.mul (SlateExpr.mul C (SlateExpr.inv A))
               (SlateExpr.coeff Coeff.g)))) ∧
     r.sigma_sol =
       SlateExpr.sub (SlateExpr.mul (SlateExpr.inv A) (SlateExpr.coeff Coeff.g))
         (SlateExpr.mul (SlateExpr.inv A)
           (SlateExpr.add (SlateExpr.mul B (SlateExpr.coeff Coeff.u_h))
             (SlateExpr.mul (SlateExpr.transpose K_local)
               (SlateExpr.coeff Coeff.traceSolution)))) ∧
     r.pressure_callable = ⟨r.u_sol, FieldRef.brokenSolutionScal, []⟩ ∧
     r.velocity_callable = ⟨r.sigma_sol, FieldRef.brokenSolutionVec, []⟩) := by
  obtain ⟨d, rfl⟩ := pcSetUp_ok h
  exact ⟨rfl, rfl, rfl, rfl⟩

/-- C2 (witness): the reconstruction statement instantiated at the
valid context `ctx0`. -/
theorem C2_witness :
    (HybridizationPC.pcSetUp ctx0).1 = Except.ok r0 ∧
    r0.pressure_callable.expr = r0.u_sol ∧
    r0.velocity_callable.expr = r0.sigma_sol :=
  ⟨rfl, by rw [(C2_reconstruction ctx0 r0 rfl).2.2.1],
   by rw [(C2_reconstruction ctx0 r0 rfl).2.2.2]⟩

/-- C3: every call of the apply pipeline executes its steps in the
strict source sequence — forward transfer of the right-hand side into
the broken space (copy of x, forward projection, scalar copy), Srhs
assembly, the trace solve, reconstruction with the pressure assembled
strictly before the velocity, and backward transfer of the broken
solution into the conforming space ending in the copy to y — and
invoking apply on an instance on which set-up has not run fails
instead of computing. -/
theorem C3_apply_order {α : Type} (ops : ExternalOps α) (st : Fields α) (x : α × α) :
    HybridizationPC.applyPC ops (some st) x =
      Except.ok (HybridizationPC.applyHP ops st x) ∧
    (HybridizationPC.applyHP ops st x).2.2 =
      [ApplyStep.copy_x_to_unbroken_rhs, ApplyStep.project_data,
       ApplyStep.copy_scalar_rhs, ApplyStep.assemble_Srhs, ApplyStep.ksp_solve,
       ApplyStep.assemble_pressure, ApplyStep.assemble_velocity,
       ApplyStep.copy_scalar_solution, ApplyStep.project_solution,
       ApplyStep.copy_solution_to_y] ∧
    HybridizationPC.applyPC ops (none : Option (Fields α)) x =
      Except.error "AttributeError: HybridizationPC object has no attribute unbroken_rhs" :=
  ⟨rfl, rfl, rfl⟩

/-- C4: evaluating the set-up code at the valid context `ctx0`, the
forward data projector is wired with BOTH source and target equal to
the broken right-hand side vector component (the source reads
`self.broken_rhs.split()[vector_index]` twice), so its source is not
the unbroken right-hand side vector component the claim (and the
surrounding code) intends; the scalar component transfer in apply
does read the unbroken scalar and write the broken scalar. -/
theorem C4_projector_source :
    (HybridizationPC.pcSetUp ctx0).1 = Except.ok r0 ∧
    r0.data_projector = ⟨FieldRef.brokenRhsVec, FieldRef.brokenRhsVec⟩ ∧
    r0.data_projector.source ≠ FieldRef.unbrokenRhsVec ∧
    stepReads ApplyStep.copy_scalar_rhs = [Loc.field FieldRef.unbrokenRhsScal] ∧
    stepWrites ApplyStep.copy_scalar_rhs = [Loc.field FieldRef.brokenRhsScal] :=
  ⟨rfl, rfl, by decide, rfl, rfl⟩

/-- C5: the trace-space degree derived at set-up is the vector space
degree minus one for the Raviart-Thomas family, the vector space
degree for the Brezzi-Douglas-Marini family, and for any other family
the set-up raises a ValueError naming the family instead of falling
back to a default degree. -/
theorem C5_trace_degree (vfam : String) (vdeg : Int) (vshape : List Nat)
    (sfam : String) (sdeg : Int) (aid : Nat) (nsv : Option (List Nat)) (pfx : String)
    (hv : vshape ≠ []) :
    (vfam = "Raviart-Thomas" →
      ∃ r : InitResult,
        (HybridizationPC.pcSetUp
          ⟨false, [⟨vfam, vdeg, vshape⟩, ⟨sfam, sdeg, []⟩], aid, nsv, pfx⟩).1 =
          Except.ok r ∧ r.tdegree = vdeg - 1) ∧
    (vfam = "Brezzi-Douglas-Marini" →
      ∃ r : InitResult,
        (HybridizationPC.pcSetUp
          ⟨false, [⟨vfam, vdeg, vshape⟩, ⟨sfam, sdeg, []⟩], aid, nsv, pfx⟩).1 =
          Except.ok r ∧ r.tdegree = vdeg) ∧
    (vfam ≠ "Raviart-Thomas" → vfam ≠ "Brezzi-Douglas-Marini" →
      (HybridizationPC.pcSetUp
        ⟨false, [⟨vfam, vdeg, vshape⟩, ⟨sfam, sdeg, []⟩], aid, nsv, pfx⟩).1 =
        Except.error (InitError.valueError (vfam ++ " not supported at the moment."))) := by
  cases vshape with
  | nil => exact absurd rfl hv
  | cons a t =>
    have hchk : pcChecks ⟨false, [⟨vfam, vdeg, a :: t⟩, ⟨sfam, sdeg, []⟩], aid, nsv, pfx⟩
        = Except.ok ⟨vfam, vdeg, a :: t⟩ := rfl
    refine ⟨?_, ?_, ?_⟩
    · intro h1
      subst h1
      exact ⟨(buildResult ⟨false, [⟨"Raviart-Thomas", vdeg, a :: t⟩, ⟨sfam, sdeg, []⟩],
        aid, nsv, pfx⟩ (vdeg - 1)).1, rfl, rfl⟩
    · intro h1
      subst h1
      exact ⟨(buildResult ⟨false, [⟨"Brezzi-Douglas-Marini", vdeg, a :: t⟩,
        ⟨sfam, sdeg, []⟩], aid, nsv, pfx⟩ vdeg).1, rfl, rfl⟩
    · intro h1 h2
      have hdeg : traceDegreeOf ⟨vfam, vdeg, a :: t⟩
          = Except.error (InitError.valueError (vfam ++ " not supported at the moment.")) := by
        unfold traceDegreeOf
        rw [if_neg h1, if_neg h2]
      unfold HybridizationPC.pcSetUp
      rw [hchk]
      dsimp only
      rw [hdeg]

/-- C5 (witness): at the lowest-order Raviart-Thomas context the
set-up succeeds with trace degree 1 - 1 = 0. -/
theorem C5_witness :
    (([2] : List Nat) ≠ []) ∧
    ∃ r : InitResult, (HybridizationPC.pcSetUp ctx0).1 = Except.ok r ∧ r.tdegree = 1 - 1 :=
  ⟨by decide,
   (C5_trace_degree "Raviart-Thomas" 1 [2] "Discontinuous Lagrange" 0 0 none ""
     (by decide)).1 rfl⟩

/-- C6: the set-up raises a fatal configuration error, with no
assembly work performed (empty event list), when the mesh is
extruded, when the mixed space does not have exactly two component
spaces, or when both component spaces are vector-valued. -/
theorem C6_config_errors (ctx : PCContext) :
    (ctx.extruded = true →
      HybridizationPC.pcSetUp ctx =
        (Except.error (InitError.notImplementedError
          "Not implemented on extruded meshes."), [])) ∧
    (ctx.extruded = false → ctx.spaces.length ≠ 2 →
      HybridizationPC.pcSetUp ctx =
        (Except.error (InitError.assertionError
          "Can only hybridize a mixed system with two spaces."), [])) ∧
    (ctx.extruded = false → ctx.spaces.length = 2 →
      (∀ e ∈ ctx.spaces, e.value_shape ≠ []) →
      HybridizationPC.pcSetUp ctx =
        (Except.error (InitError.valueError
          "Expecting an H(div) x L2 pair of spaces. Both spaces cannot be vector-valued."),
         [])) := by
  refine ⟨?_, ?_, ?_⟩
  · intro h0
    simp [HybridizationPC.pcSetUp, pcChecks, h0]
  · intro h0 h1
    simp [HybridizationPC.pcSetUp, pcChecks, h0, h1]
  · intro h0 h1 h2
    have hall : ctx.spaces.all (fun e => !e.value_shape.isEmpty) = true := by
      rw [List.all_eq_true]
      intro e he
      have h3 := h2 e he
      simp [List.isEmpty_iff, h3]
    simp [HybridizationPC.pcSetUp, pcChecks, h0, h1, hall]

/-- C6 (witness): the three rejections at concrete contexts — an
extruded mesh, a three-space mixed system, and a both-vector pair. -/
theorem C6_witness :
    HybridizationPC.pcSetUp ctxExtr =
      (Except.error (InitError.notImplementedError
        "Not implemented on extruded meshes."), []) ∧
    HybridizationPC.pcSetUp ctxThree =
      (Except.error (InitError.assertionError
        "Can only hybridize a mixed system with two spaces."), []) ∧
    HybridizationPC.pcSetUp ctxBothVec =
      (Except.error (InitError.valueError
        "Expecting an H(div) x L2 pair of spaces. Both spaces cannot be vector-valued."),
       []) :=
  ⟨(C6_config_errors ctxExtr).1 rfl,
   (C6_config_errors ctxThree).2.1 rfl (by decide),
   (C6_config_errors ctxBothVec).2.2 rfl rfl (by decide)⟩

/-- C7: if the original operator carries no nullspace, the transfer
returns nothing, no nullspace is attached to the reduced operator and
no transfer work is performed; if it has k vectors, the reduced
nullspace has exactly k vectors, each obtained by copying the
original vector into a conforming-space field, projecting it into the
broken space, and assembling the forward map K * Atilde.inv applied
to it into a trace-space vector. -/
theorem C7_nullspace_transfer (ctx : PCContext) (r : InitResult)
    (h : (HybridizationPC.pcSetUp ctx).1 = Except.ok r) :
    (ctx.nullspaceVecs = none →
      r.smatNullspace = none ∧ r.nullspaceEvents = []) ∧
    (∀ vs : List Nat, ctx.nullspaceVecs = some vs →
      r.smatNullspace = some (vs.map (fun v =>
        TraceVecNS.assembledAction
          (SlateExpr.mul r.K (SlateExpr.inv r.Atilde))
          (BrokenProj.ofConforming (ConformingCopy.ofVec v)))) ∧
      ∀ l : List TraceVecNS, r.smatNullspace = some l → l.length = vs.length) := by
  obtain ⟨d, rfl⟩ := pcSetUp_ok h
  constructor
  · intro hn
    constructor
    · rw [buildResult_smatNullspace, hn, create_schur_nullspace_none]
    · rw [buildResult_nsEvents, hn, create_schur_nullspace_none]
  · intro vs hvs
    have hmap : (buildResult ctx d).1.smatNullspace = some (vs.map (fun v =>
        TraceVecNS.assembledAction
          (SlateExpr.mul (buildResult ctx d).1.K
            (SlateExpr.inv (buildResult ctx d).1.Atilde))
          (BrokenProj.ofConforming (ConformingCopy.ofVec v)))) := by
      rw [buildResult_smatNullspace, hvs, create_schur_nullspace_some]
    refine ⟨hmap, ?_⟩
    intro l hl
    rw [hmap] at hl
    have : l = vs.map (fun v =>
        TraceVecNS.assembledAction
          (SlateExpr.mul (buildResult ctx d).1.K
            (SlateExpr.inv (buildResult ctx d).1.Atilde))
          (BrokenProj.ofConforming (ConformingCopy.ofVec v))) := by
      exact (Option.some.injEq _ _).mp hl.symm
    rw [this, List.length_map]

/-- C7 (witness): at the context with a two-vector nullspace the
reduced nullspace holds exactly the two transferred vectors; at the
context without one nothing is attached and no work is done. -/
theorem C7_witness :
    (HybridizationPC.pcSetUp ctx0ns).1 = Except.ok r0ns ∧
    r0ns.smatNullspace = some
      [TraceVecNS.assembledAction (SlateExpr.mul r0ns.K (SlateExpr.inv r0ns.Atilde))
         (BrokenProj.ofConforming (ConformingCopy.ofVec 5)),
       TraceVecNS.assembledAction (SlateExpr.mul r0ns.K (SlateExpr.inv r0ns.Atilde))
         (BrokenProj.ofConforming (ConformingCopy.ofVec 9))] ∧
    r0.smatNullspace = none ∧ r0.nullspaceEvents = [] :=
  ⟨rfl,
   by simpa using ((C7_nullspace_transfer ctx0ns r0ns rfl).2 [5, 9] rfl).1,
   ((C7_nullspace_transfer ctx0 r0 rfl).1 rfl).1,
   ((C7_nullspace_transfer ctx0 r0 rfl).1 rfl).2⟩

/-- C8: update is idempotent — running it twice on an unchanged state
(in particular unchanged coefficient values) equals running it once —
and it only re-assembles numerically: the captured symbolic
expressions, the coefficient values and the KSP solver object are all
preserved. -/
theorem C8_update_idempotent {κ μ ν : Type} (asmS : SlateExpr → κ → μ)
    (asmRhs : SlateExpr → κ → ν) (st : UpdateState κ μ ν) :
    HybridizationPC.updatePC asmS asmRhs (HybridizationPC.updatePC asmS asmRhs st) =
      HybridizationPC.updatePC asmS asmRhs st ∧
    (HybridizationPC.updatePC asmS asmRhs st).ksp = st.ksp ∧
    (HybridizationPC.updatePC asmS asmRhs st).exprS = st.exprS ∧
    (HybridizationPC.updatePC asmS asmRhs st).exprSrhs = st.exprSrhs ∧
    (HybridizationPC.updatePC asmS asmRhs st).coeffVals = st.coeffVals :=
  ⟨rfl, rfl, rfl, rfl, rfl⟩

/-- C9: for every input, applyTranspose unconditionally returns the
declared not-implemented error (the two adjacent string literals of
the source concatenate without a space), producing no state change or
output. -/
theorem C9_applyTranspose_raises {α : Type} (st : Fields α) (x y : α × α) :
    HybridizationPC.applyTransposePC st x y =
      Except.error "The transpose application of this PCis not implemented." :=
  rfl

/-- The step trace of the apply pipeline is a fixed list. -/
theorem applyHP_trace {α : Type} (ops : ExternalOps α) (st : Fields α) (x : α × α) :
    (HybridizationPC.applyHP ops st x).2.2 =
      [ApplyStep.copy_x_to_unbroken_rhs, ApplyStep.project_data,
       ApplyStep.copy_scalar_rhs, ApplyStep.assemble_Srhs, ApplyStep.ksp_solve,
       ApplyStep.assemble_pressure, ApplyStep.assemble_velocity,
       ApplyStep.copy_scalar_solution, ApplyStep.project_solution,
       ApplyStep.copy_solution_to_y] :=
  rfl

/-- C10: in the apply pipeline the input vector x is only read, by the
single initial copy into the unbroken right-hand side, and never
written; the output vector y is written by exactly one step, the last
one, whose value is the full copy (both components) of the unbroken
solution field; and every other write of every step lands in one of
the orchestrator's own persistent fields. -/
theorem C10_apply_frame {α : Type} (ops : ExternalOps α) (st : Fields α) (x : α × α) :
    (∀ s ∈ (HybridizationPC.applyHP ops st x).2.2, Loc.x ∉ stepWrites s) ∧
    (∀ s ∈ (HybridizationPC.applyHP ops st x).2.2,
      Loc.x ∈ stepReads s → s = ApplyStep.copy_x_to_unbroken_rhs) ∧
    (HybridizationPC.applyHP ops st x).2.2.head? = some ApplyStep.copy_x_to_unbroken_rhs ∧
    (HybridizationPC.applyHP ops st x).1.unbroken_rhs_v = x.1 ∧
    (HybridizationPC.applyHP ops st x).1.unbroken_rhs_s = x.2 ∧
    (∀ s ∈ (HybridizationPC.applyHP ops st x).2.2,
      Loc.y ∈ stepWrites s → s = ApplyStep.copy_solution_to_y) ∧
    (HybridizationPC.applyHP ops st x).2.2.getLast? = some ApplyStep.copy_solution_to_y ∧
    (HybridizationPC.applyHP ops st x).2.1 =
      ((HybridizationPC.applyHP ops st x).1.unbroken_sol_v,
       (HybridizationPC.applyHP ops st x).1.unbroken_sol_s) ∧
    (∀ s ∈ (HybridizationPC.applyHP ops st x).2.2,
      s ≠ ApplyStep.copy_solution_to_y → ∀ l ∈ stepWrites s, l.isField = true) := by
  have htr := applyHP_trace ops st x
  refine ⟨?_, ?_, rfl, rfl, rfl, ?_, rfl, rfl, ?_⟩ <;> rw [htr] <;> decide
